import Mathlib

/-!
Shallow embedding of the core request flow of `src/app.py` (Agri AI Assistant):
the `/chat` dispatcher, the OpenAI answer generator `get_anwer_openai`, the
Hugging Face transcriber `process_audio`, the text pipeline `process_text`,
the synthesizer `text_to_audio`, the extension check `allowed_file`, and
werkzeug `secure_filename` (restricted to a POSIX host).

External effects (the OpenAI call, the HTTP POST to Hugging Face, gTTS, the
filesystem) are modelled by explicit outcome values threaded into the
functions. Python exceptions are modelled with `Except`; a function that the
source lets raise returns `Except PyExn _`, and the catch-all in `chat`
pattern-matches the error away exactly where the `try/except` of the source
does. Python string truthiness (`if not KEY`, `a or b`, `if text:`) is
modelled by `pyTruthyStr`, which is false on `none` and on the empty string.
-/

/-- Python exceptions that the modelled code can raise. -/
inductive PyExn
  | ioError     -- e.g. FileNotFoundError from `open(filepath, "rb")`
  | gttsError   -- failure inside gTTS / tts.save
  | saveError   -- failure of `f.save(filepath)` in the dispatcher
deriving DecidableEq

/-- Outcome of the single `openai.ChatCompletion.create` attempt.
`ok content` stands for a well-formed completion whose first choice message
content is `content`; a malformed completion object (the indexing in line 113
of the source raising) is covered by `localError`, which the source catches
with `except Exception`. -/
inductive OpenAIOutcome
  | ok (content : String)
  | authError   -- openai.error.AuthenticationError
  | apiError    -- any other openai.error.OpenAIError
  | localError  -- any other Exception
deriving DecidableEq

/-- Outcome of the `requests.post` to the Hugging Face inference endpoint.
`transportError` covers a raising `requests.post` (timeout, DNS), a non-2xx
status (`raise_for_status`) and a malformed JSON body (`response.json()`
raising) — everything the `try` of `process_audio` catches.
`jsonDict tf` is a JSON object whose `text` field is `tf` (absent = `none`);
`jsonNonDict` is a JSON value that is not an object. -/
inductive HFOutcome
  | transportError
  | jsonDict (textField : Option String)
  | jsonNonDict
deriving DecidableEq

/-- Python `str.split()` separators (ASCII whitespace; the filenames and
texts this code handles are modelled over ASCII, where Python's Unicode
whitespace classes and case mappings coincide with these). -/
def pyWhitespace (c : Char) : Bool :=
  c = ' ' || c = '\t' || c = '\n' || c = '\r' || c = '\x0b' || c = '\x0c'

/-- Python `str.strip()` with no argument: drop leading and trailing
whitespace. -/
def pyStrip (s : String) : String :=
  String.mk
    (((s.data.dropWhile pyWhitespace).reverse.dropWhile pyWhitespace).reverse)

/-- ASCII `str.lower()` on one character. -/
def lowerChar (c : Char) : Char :=
  if 'A' ≤ c && c ≤ 'Z' then Char.ofNat (c.toNat + 32) else c

/-- ASCII `str.lower()`. -/
def asciiLower (s : List Char) : List Char := s.map lowerChar

/-- Python truthiness of an optional string: `None` and `""` are falsy. -/
def pyTruthyStr : Option String → Bool
  | none => false
  | some s => !s.data.isEmpty

/-- Python `a or b` on optional strings. -/
def pyOr (a b : Option String) : Option String :=
  if pyTruthyStr a then a else b

/-- The sentinels of `get_anwer_openai`, verbatim from the source. -/
def keyMissingSentinel : String :=
  "OpenAI API key missing on server. Set OPENAI_API_KEY and restart the app."

def authFailedSentinel : String :=
  "OpenAI authentication failed. Check OPENAI_API_KEY on the server."

def apiErrorSentinel : String :=
  "OpenAI API error. See server logs."

def unexpectedErrorSentinel : String :=
  "Unexpected server error while contacting OpenAI."

/-- `get_anwer_openai` (src/app.py lines 96-122). The first component is the
returned string, the second counts invocations of
`openai.ChatCompletion.create` during the call. The credential check is
Python falsiness of `openai.api_key`. -/
def get_anwer_openai (key : Option String) (outcome : OpenAIOutcome)
    (question : String) : String × Nat :=
  if pyTruthyStr key = false then (keyMissingSentinel, 0)
  else
    match outcome with
    | OpenAIOutcome.ok content => (pyStrip content, 1)
    | OpenAIOutcome.authError => (authFailedSentinel, 1)
    | OpenAIOutcome.apiError => (apiErrorSentinel, 1)
    | OpenAIOutcome.localError => (unexpectedErrorSentinel, 1)

/-- The on-disk path `f'static/audio/{filename}.mp3'` used by
`text_to_audio`. -/
def ttsPath (filename : String) : String :=
  "static/audio/" ++ filename ++ ".mp3"

/-- `text_to_audio` (src/app.py lines 124-135): writes
`static/audio/<filename>.mp3` and returns that path, re-raising any failure. -/
def text_to_audio (gttsOk : Bool) (text : String) (filename : String) :
    Except PyExn String :=
  if gttsOk then Except.ok (ttsPath filename)
  else Except.error PyExn.gttsError

/-- The sentinels of `process_audio`, verbatim from the source. -/
def transcriptionNotConfiguredSentinel : String :=
  "Transcription service not configured."

def couldNotTranscribeSentinel : String :=
  "Could not transcribe audio."

def transcriptionFailedSentinel : String :=
  "Audio transcription failed."

/-- `process_audio` (src/app.py lines 168-191). `fileRead` is the outcome of
`open(filepath, "rb").read()`, which the source performs OUTSIDE its
`try` block, so a read failure propagates to the caller. The guard
`if not text` makes both an absent and an empty `text` field fail. -/
def process_audio (hfKey : Option String) (fileRead : Except PyExn String)
    (outcome : HFOutcome) : Except PyExn String :=
  if pyTruthyStr hfKey = false then Except.ok transcriptionNotConfiguredSentinel
  else
    match fileRead with
    | Except.error e => Except.error e
    | Except.ok _data =>
      Except.ok
        (match outcome with
         | HFOutcome.transportError => transcriptionFailedSentinel
         | HFOutcome.jsonNonDict => couldNotTranscribeSentinel
         | HFOutcome.jsonDict none => couldNotTranscribeSentinel
         | HFOutcome.jsonDict (some t) =>
           if t.isEmpty then couldNotTranscribeSentinel else t)

/-- `app.config['ALLOWED_EXTENSIONS'] = {'webm'}` (src/app.py line 15). -/
def ALLOWED_EXTENSIONS : List String := ["webm"]

/-- The substring after the last dot: `filename.rsplit('.', 1)[1]` when a dot
is present (the only case in which the source evaluates it). -/
def afterLastDot (s : String) : String :=
  String.mk ((s.data.reverse.takeWhile (fun c => c != '.')).reverse)

/-- `allowed_file` (src/app.py lines 165-166): membership of the lowered
extension in the `ALLOWED_EXTENSIONS` set. -/
def allowed_file (filename : String) : Bool :=
  filename.data.contains '.' &&
    ALLOWED_EXTENSIONS.any
      (fun e => decide (e.data = asciiLower (afterLastDot filename).data))

/-- Characters kept by werkzeug's `_filename_ascii_strip_re`. -/
def filenameAsciiKeep (c : Char) : Bool :=
  ('A' ≤ c && c ≤ 'Z') || ('a' ≤ c && c ≤ 'z') || ('0' ≤ c && c ≤ '9') ||
    c = '_' || c = '.' || c = '-'

def isDotOrUnderscore (c : Char) : Bool := c = '.' || c = '_'

/-- Python `str.split()` with no argument: the maximal runs of
non-whitespace characters (empty pieces are dropped). `acc` holds the
current word reversed. -/
def pyWordsAux : List Char → List Char → List (List Char)
  | [], acc => if acc.isEmpty then [] else [acc.reverse]
  | c :: rest, acc =>
    if pyWhitespace c then
      if acc.isEmpty then pyWordsAux rest []
      else acc.reverse :: pyWordsAux rest []
    else pyWordsAux rest (c :: acc)

def pyWords (l : List Char) : List (List Char) := pyWordsAux l []

/-- Python `'_'.join(words)`. -/
def joinUnderscore : List (List Char) → List Char
  | [] => []
  | [w] => w
  | w :: ws => w ++ '_' :: joinUnderscore ws

/-- werkzeug `secure_filename` on a POSIX host: NFKD-normalise and encode to
ASCII dropping what does not fit (modelled as dropping non-ASCII characters;
NFKD is the identity on ASCII), replace `os.sep` (`/`) with a space, join the
whitespace-split pieces with `_`, strip characters outside
`[A-Za-z0-9_.-]`, and strip leading/trailing `.` and `_`. -/
def secure_filename (s : String) : String :=
  let ascii := s.data.filter (fun c => c.toNat < 128)
  let replaced := ascii.map (fun c => if c = '/' then ' ' else c)
  let joined := joinUnderscore (pyWords replaced)
  let stripped := joined.filter filenameAsciiKeep
  String.mk
    (((stripped.dropWhile isDotOrUnderscore).reverse.dropWhile
        isDotOrUnderscore).reverse)

/-- `os.path.join(app.config['UPLOAD_FOLDER'], secure_filename(name))`:
the path the dispatcher saves an upload to (src/app.py lines 148-150). -/
def uploadPath (filename : String) : String :=
  "uploads/" ++ secure_filename filename

/-- The `voice` URL built by `process_text` via `url_for('static', ...)`. -/
def voiceUrl (token : String) : String :=
  "/static/audio/" ++ token ++ ".mp3"

/-- A multipart upload, as werkzeug `FileStorage`; its Python truthiness is
the truthiness of its filename. -/
structure UploadedFile where
  filename : String
deriving DecidableEq

def fileTruthy (f : UploadedFile) : Bool := !f.filename.data.isEmpty

/-- An inbound `/chat` request: the optional `audio` file (`none` when
`'audio' not in request.files`), the form `text` field and the JSON `text`
field (each `none` when absent). -/
structure ChatRequest where
  audio : Option UploadedFile
  formText : Option String
  jsonText : Option String
deriving DecidableEq

/-- The ambient state and external outcomes one request runs against:
the two credentials, the outcome of each remote call, whether gTTS and
`f.save` succeed, and the 8-character random token drawn by `process_text`. -/
structure World where
  openaiKey : Option String
  openaiOutcome : OpenAIOutcome
  hfKey : Option String
  hfOutcome : HFOutcome
  ttsOk : Bool
  token : String
  saveOk : Bool

/-- A JSON response body. `voice = none` means the `voice` key is absent from
the JSON object, `some v` that it is present with value `v`. -/
structure RespBody where
  text : String
  voice : Option String
deriving DecidableEq

/-- Observable events of one request: how many times each collaborator
function was invoked, and the file paths written to disk. -/
structure Trace where
  transcriber : Nat   -- invocations of process_audio
  answerGen : Nat     -- invocations of get_anwer_openai
  synth : Nat         -- invocations of text_to_audio
  writes : List String
deriving DecidableEq

def zeroTrace : Trace := ⟨0, 0, 0, []⟩

/-- The bytes the dispatcher's freshly saved file reads back as; within
`chat` the read always succeeds because the file was just written. -/
def chatAudioBytes : String := "audio-bytes"

/-- `process_text` (src/app.py lines 193-217): one call to
`get_anwer_openai`, then one attempt at `text_to_audio` under a `try` whose
handler leaves `voice_file = ""`. In this embedding nothing else inside the
outer `try` can raise, so its catch-all (line 215) is unreachable. -/
def process_text (w : World) (text : String) : RespBody × Trace :=
  let rt := get_anwer_openai w.openaiKey w.openaiOutcome text
  let return_text := rt.1
  let res := w.token
  match text_to_audio w.ttsOk return_text res with
  | Except.ok out_path =>
    (⟨return_text, some (voiceUrl res)⟩, ⟨0, 1, 1, [out_path]⟩)
  | Except.error _ =>
    (⟨return_text, some ""⟩, ⟨0, 1, 1, []⟩)

/-- The text half of the dispatcher (src/app.py lines 154-159):
`request.form.get('text') or (request.get_json(silent=True) or {}).get('text')`,
then either `process_text` or the 400 response. -/
def chatTextStep (w : World) (req : ChatRequest) :
    Except PyExn (Nat × RespBody) × Trace :=
  let text := pyOr req.formText req.jsonText
  if pyTruthyStr text then
    let r := process_text w (text.getD "")
    (Except.ok (200, r.1), r.2)
  else
    (Except.ok (400, ⟨"Invalid request", none⟩), zeroTrace)

/-- The body of the `try` in `chat` (src/app.py lines 144-159). In the audio
branch the saved file is read back successfully by `process_audio`. -/
def chatBody (w : World) (req : ChatRequest) :
    Except PyExn (Nat × RespBody) × Trace :=
  match req.audio with
  | some f =>
    if fileTruthy f && allowed_file f.filename then
      if w.saveOk then
        let fp := uploadPath f.filename
        match process_audio w.hfKey (Except.ok chatAudioBytes) w.hfOutcome with
        | Except.ok transcription =>
          (Except.ok (200, ⟨transcription, none⟩), ⟨1, 0, 0, [fp]⟩)
        | Except.error e => (Except.error e, ⟨1, 0, 0, [fp]⟩)
      else (Except.error PyExn.saveError, zeroTrace)
    else chatTextStep w req
  | none => chatTextStep w req

/-- The `/chat` handler (src/app.py lines 141-163): the `try/except` turns
any escaping exception into `500 {'text': 'Internal server error'}`. Returns
(HTTP status, JSON body, trace). -/
def chat (w : World) (req : ChatRequest) : Nat × RespBody × Trace :=
  match chatBody w req with
  | (Except.ok (status, body), tr) => (status, body, tr)
  | (Except.error _, tr) => (500, ⟨"Internal server error", none⟩, tr)

/-- `'audio' in request.files` holds and the file passes the
truthiness-and-extension guard of line 147. -/
def audioHandled (req : ChatRequest) : Bool :=
  match req.audio with
  | some f => fileTruthy f && allowed_file f.filename
  | none => false

/-- A truthy `text` field reaches the text pipeline (line 155). -/
def textProvided (req : ChatRequest) : Bool :=
  pyTruthyStr (pyOr req.formText req.jsonText)

/-! Concrete fixtures used to instantiate the theorems below. -/

/-- A fully working environment: both credentials set, every external call
succeeds, the transcriber returns `{"text": "hello"}`. -/
def wOk : World :=
  ⟨some "sk-key", OpenAIOutcome.ok "Apply fungicide X", some "hf-key",
    HFOutcome.jsonDict (some "hello"), true, "AB12CD34", true⟩

/-- Like `wOk` but `f.save` raises. -/
def wSaveFail : World :=
  ⟨some "sk-key", OpenAIOutcome.ok "Apply fungicide X", some "hf-key",
    HFOutcome.jsonDict (some "hello"), true, "AB12CD34", false⟩

/-- Like `wOk` but gTTS fails, so no voice file is produced. -/
def wNoTts : World :=
  ⟨some "sk-key", OpenAIOutcome.ok "Apply fungicide X", some "hf-key",
    HFOutcome.jsonDict (some "hello"), false, "AB12CD34", true⟩

def reqAudioOk : ChatRequest := ⟨some ⟨"clip.webm"⟩, none, none⟩

def reqAudioBadExt : ChatRequest := ⟨some ⟨"clip.exe"⟩, some "hi", none⟩

def reqTextOnly : ChatRequest := ⟨none, some "How do I treat leaf rust?", none⟩

def reqEmpty : ChatRequest := ⟨none, none, none⟩

/-! Helper lemmas shared by the claim theorems. -/

theorem chat_of_body_ok (w : World) (req : ChatRequest) (s : Nat) (b : RespBody)
    (tr : Trace) (h : chatBody w req = (Except.ok (s, b), tr)) :
    chat w req = (s, b, tr) := by
  unfold chat
  rw [h]

theorem chat_of_body_err (w : World) (req : ChatRequest) (e : PyExn) (tr : Trace)
    (h : chatBody w req = (Except.error e, tr)) :
    chat w req = (500, ⟨"Internal server error", none⟩, tr) := by
  unfold chat
  rw [h]

theorem process_audio_read_ok (k : Option String) (d : String) (o : HFOutcome) :
    ∃ t, process_audio k (Except.ok d) o = Except.ok t := by
  unfold process_audio
  by_cases hk : pyTruthyStr k = false
  · rw [if_pos hk]
    exact ⟨_, rfl⟩
  · rw [if_neg hk]
    exact ⟨_, rfl⟩

theorem allowed_file_data_ne_nil (fn : String) (h : allowed_file fn = true) :
    fn.data.isEmpty = false := by
  unfold allowed_file at h
  rw [Bool.and_eq_true] at h
  rcases h with ⟨h1, -⟩
  cases hd : fn.data with
  | nil => rw [hd] at h1; simp [List.contains] at h1
  | cons c l => simp

theorem audio_guard_true (f : UploadedFile) (h : allowed_file f.filename = true) :
    (fileTruthy f && allowed_file f.filename) = true := by
  rw [Bool.and_eq_true]
  refine ⟨?_, h⟩
  unfold fileTruthy
  rw [allowed_file_data_ne_nil f.filename h]
  rfl

theorem chatBody_audio_ok (w : World) (req : ChatRequest) (f : UploadedFile)
    (t : String) (ha : req.audio = some f)
    (hg : (fileTruthy f && allowed_file f.filename) = true)
    (hs : w.saveOk = true)
    (hp : process_audio w.hfKey (Except.ok chatAudioBytes) w.hfOutcome =
      Except.ok t) :
    chatBody w req =
      (Except.ok (200, ⟨t, none⟩), ⟨1, 0, 0, [uploadPath f.filename]⟩) := by
  unfold chatBody
  rw [ha]
  simp [hg, hs, hp]

theorem chatBody_audio_saveFail (w : World) (req : ChatRequest)
    (f : UploadedFile) (ha : req.audio = some f)
    (hg : (fileTruthy f && allowed_file f.filename) = true)
    (hs : w.saveOk = false) :
    chatBody w req = (Except.error PyExn.saveError, zeroTrace) := by
  unfold chatBody
  rw [ha]
  simp [hg, hs]

theorem chatBody_no_audio_handled (w : World) (req : ChatRequest)
    (h : audioHandled req = false) :
    chatBody w req = chatTextStep w req := by
  unfold chatBody
  unfold audioHandled at h
  cases haud : req.audio with
  | none => rfl
  | some f =>
    rw [haud] at h
    simp only [] at h
    simp [h]

theorem chatTextStep_text (w : World) (req : ChatRequest)
    (h : textProvided req = true) :
    chatTextStep w req =
      (Except.ok (200,
          (process_text w ((pyOr req.formText req.jsonText).getD "")).1),
        (process_text w ((pyOr req.formText req.jsonText).getD "")).2) := by
  unfold textProvided at h
  unfold chatTextStep
  simp [h]

theorem chatTextStep_noText (w : World) (req : ChatRequest)
    (h : textProvided req = false) :
    chatTextStep w req =
      (Except.ok (400, ⟨"Invalid request", none⟩), zeroTrace) := by
  unfold textProvided at h
  unfold chatTextStep
  simp [h]

theorem process_text_eq (w : World) (t : String) :
    process_text w t =
      (⟨(get_anwer_openai w.openaiKey w.openaiOutcome t).1,
          some (if w.ttsOk = true then voiceUrl w.token else "")⟩,
        ⟨0, 1, 1, if w.ttsOk = true then [ttsPath w.token] else []⟩) := by
  unfold process_text text_to_audio
  cases hts : w.ttsOk with
  | true => simp
  | false => simp

theorem voiceUrl_ne_empty (t : String) : voiceUrl t ≠ "" := by
  intro h
  have hm : '.' ∈ (voiceUrl t).data := by
    unfold voiceUrl
    rw [String.data_append]
    exact List.mem_append_right _ (by decide)
  rw [h] at hm
  exact absurd hm (by decide)

/-! Claim theorems. -/

/-- C1: a `/chat` request whose audio attachment passes the extension
allow-list never invokes the answer generator or the synthesizer, and (when
the save succeeds) saves the file, runs the transcriber once, and returns
the transcription as the terminal 200 response `{text: transcription}`. -/
theorem C1_audio_terminal (w : World) (req : ChatRequest) (f : UploadedFile)
    (ha : req.audio = some f) (hf : allowed_file f.filename = true) :
    (chat w req).2.2.answerGen = 0 ∧ (chat w req).2.2.synth = 0 ∧
    (w.saveOk = true →
      ∃ t, process_audio w.hfKey (Except.ok chatAudioBytes) w.hfOutcome =
          Except.ok t ∧
        chat w req = (200, ⟨t, none⟩, ⟨1, 0, 0, [uploadPath f.filename]⟩)) := by
  have hg := audio_guard_true f hf
  obtain ⟨t, ht⟩ := process_audio_read_ok w.hfKey chatAudioBytes w.hfOutcome
  cases hs : w.saveOk with
  | true =>
    rw [chat_of_body_ok w req 200 ⟨t, none⟩ ⟨1, 0, 0, [uploadPath f.filename]⟩
      (chatBody_audio_ok w req f t ha hg hs ht)]
    exact ⟨rfl, rfl, fun _ => ⟨t, ht, rfl⟩⟩
  | false =>
    rw [chat_of_body_err w req PyExn.saveError zeroTrace
      (chatBody_audio_saveFail w req f ha hg hs)]
    exact ⟨rfl, rfl, fun h => absurd h Bool.false_ne_true⟩

theorem C1_witness :
    (chat wOk reqAudioOk).2.2.answerGen = 0 ∧
    (chat wOk reqAudioOk).2.2.synth = 0 ∧
    (wOk.saveOk = true →
      ∃ t, process_audio wOk.hfKey (Except.ok chatAudioBytes) wOk.hfOutcome =
          Except.ok t ∧
        chat wOk reqAudioOk =
          (200, ⟨t, none⟩, ⟨1, 0, 0, [uploadPath "clip.webm"]⟩)) :=
  C1_audio_terminal wOk reqAudioOk ⟨"clip.webm"⟩ rfl (by decide)

/-- C2 counterexample: a successful (HTTP 200) audio-path response carries
no `voice` key at all, so it is not of shape `{text, voice}`. -/
theorem C2_counterexample :
    (chat wOk reqAudioOk).1 = 200 ∧
    (chat wOk reqAudioOk).2.1.voice = none := by
  decide

/-- C2 amended: `text` is always present; the `voice` field is present
exactly on text-pipeline responses (no qualifying audio and a truthy text
field) and there it is the empty string exactly when synthesis failed;
audio-path, 400 and 500 responses carry only `text`. -/
theorem C2_amended_response_shape (w : World) (req : ChatRequest) :
    ((chat w req).2.1.voice.isSome = true ↔
      (audioHandled req = false ∧ textProvided req = true)) ∧
    (∀ v, (chat w req).2.1.voice = some v → (v = "" ↔ w.ttsOk = false)) := by
  cases haud : audioHandled req with
  | true =>
    obtain ⟨f, haf⟩ : ∃ f, req.audio = some f := by
      unfold audioHandled at haud
      cases h : req.audio with
      | none => rw [h] at haud; exact absurd haud Bool.false_ne_true
      | some f => exact ⟨f, rfl⟩
    have hg : (fileTruthy f && allowed_file f.filename) = true := by
      unfold audioHandled at haud
      rw [haf] at haud
      exact haud
    cases hsv : w.saveOk with
    | true =>
      obtain ⟨t, ht⟩ := process_audio_read_ok w.hfKey chatAudioBytes w.hfOutcome
      rw [chat_of_body_ok w req 200 ⟨t, none⟩ _
        (chatBody_audio_ok w req f t haf hg hsv ht)]
      refine ⟨by simp [haud], fun v hv => absurd hv (by simp)⟩
    | false =>
      rw [chat_of_body_err w req PyExn.saveError zeroTrace
        (chatBody_audio_saveFail w req f haf hg hsv)]
      refine ⟨by simp [haud], fun v hv => absurd hv (by simp)⟩
  | false =>
    have hb := chatBody_no_audio_handled w req haud
    cases htp : textProvided req with
    | true =>
      rw [chat_of_body_ok w req 200 _ _ (hb.trans (chatTextStep_text w req htp))]
      rw [process_text_eq]
      constructor
      · simp [haud, htp]
      · intro v hv
        cases hts : w.ttsOk with
        | true =>
          rw [hts] at hv
          simp at hv
          subst hv
          simp [hts, voiceUrl_ne_empty w.token]
        | false =>
          rw [hts] at hv
          simp at hv
          subst hv
          simp [hts]
    | false =>
      rw [chat_of_body_ok w req 400 _ _ (hb.trans (chatTextStep_noText w req htp))]
      refine ⟨by simp [haud, htp], fun v hv => absurd hv (by simp)⟩

theorem C2_amended_witness :
    ((chat wNoTts reqTextOnly).2.1.voice.isSome = true ↔
      (audioHandled reqTextOnly = false ∧ textProvided reqTextOnly = true)) ∧
    ("" = "" ↔ wNoTts.ttsOk = false) :=
  ⟨(C2_amended_response_shape wNoTts reqTextOnly).1,
    (C2_amended_response_shape wNoTts reqTextOnly).2 "" (by decide)⟩

/-- C3: with the OpenAI credential unset, `get_anwer_openai` returns the
fixed key-missing sentinel and performs zero ChatCompletion calls. -/
theorem C3_key_unset_no_call (outcome : OpenAIOutcome) (q : String) :
    get_anwer_openai none outcome q = (keyMissingSentinel, 0) := by
  unfold get_anwer_openai
  rfl

/-- C4: `get_anwer_openai` makes at most one API attempt, exactly one when
the credential is set, never raises (it is a total function into sentinel
strings), and maps each failure category to its own sentinel; the four
sentinels are pairwise distinct. -/
theorem C4_single_attempt_sentinels (key : Option String)
    (outcome : OpenAIOutcome) (q : String) :
    (get_anwer_openai key outcome q).2 ≤ 1 ∧
    (pyTruthyStr key = true →
      (get_anwer_openai key outcome q).2 = 1 ∧
      (outcome = OpenAIOutcome.authError →
        (get_anwer_openai key outcome q).1 = authFailedSentinel) ∧
      (outcome = OpenAIOutcome.apiError →
        (get_anwer_openai key outcome q).1 = apiErrorSentinel) ∧
      (outcome = OpenAIOutcome.localError →
        (get_anwer_openai key outcome q).1 = unexpectedErrorSentinel)) ∧
    (authFailedSentinel ≠ apiErrorSentinel ∧
      authFailedSentinel ≠ unexpectedErrorSentinel ∧
      apiErrorSentinel ≠ unexpectedErrorSentinel ∧
      keyMissingSentinel ≠ authFailedSentinel ∧
      keyMissingSentinel ≠ apiErrorSentinel ∧
      keyMissingSentinel ≠ unexpectedErrorSentinel) := by
  refine ⟨?_, ?_, by decide⟩
  · unfold get_anwer_openai
    by_cases hk : pyTruthyStr key = false
    · rw [if_pos hk]
      exact Nat.zero_le 1
    · rw [if_neg hk]
      cases outcome <;> exact Nat.le_refl 1
  · intro hk
    have hk' : ¬(pyTruthyStr key = false) := by
      rw [hk]
      exact fun hc => Bool.noConfusion hc
    cases outcome <;> simp [get_anwer_openai, hk']

theorem C4_witness :
    (get_anwer_openai (some "sk-key") OpenAIOutcome.authError "q").2 = 1 ∧
    (get_anwer_openai (some "sk-key") OpenAIOutcome.authError "q").1 =
      authFailedSentinel := by
  have h := (C4_single_attempt_sentinels (some "sk-key")
    OpenAIOutcome.authError "q").2.1 (by decide)
  exact ⟨h.1, h.2.1 rfl⟩

/-- C5: whenever the dispatch body raises, the `/chat` handler catches it
and answers 500 with `{text: "Internal server error"}`; `chat` itself is a
total function, so no exception reaches the transport layer. -/
theorem C5_catch_all (w : World) (req : ChatRequest) (e : PyExn) (tr : Trace)
    (h : chatBody w req = (Except.error e, tr)) :
    chat w req = (500, ⟨"Internal server error", none⟩, tr) :=
  chat_of_body_err w req e tr h

theorem C5_witness :
    chat wSaveFail reqAudioOk =
      (500, ⟨"Internal server error", none⟩, zeroTrace) :=
  C5_catch_all wSaveFail reqAudioOk PyExn.saveError zeroTrace rfl

/-- C6: a request with neither a qualifying audio attachment nor a text
field is answered 400 with `{text: "Invalid request"}`. -/
theorem C6_invalid_request (w : World) (req : ChatRequest)
    (h1 : audioHandled req = false) (h2 : req.formText = none)
    (h3 : req.jsonText = none) :
    chat w req = (400, ⟨"Invalid request", none⟩, zeroTrace) := by
  have hb := chatBody_no_audio_handled w req h1
  have htp : textProvided req = false := by
    unfold textProvided pyOr
    rw [h2, h3]
    rfl
  exact chat_of_body_ok w req 400 _ _ (hb.trans (chatTextStep_noText w req htp))

theorem C6_witness :
    chat wOk reqEmpty = (400, ⟨"Invalid request", none⟩, zeroTrace) :=
  C6_invalid_request wOk reqEmpty rfl rfl rfl

/-- C7: a request whose audio attachment has a disallowed extension never
invokes the transcriber; it falls through to the text pipeline when a
truthy text field is present, else to the 400 response. -/
theorem C7_disallowed_ext (w : World) (req : ChatRequest) (f : UploadedFile)
    (ha : req.audio = some f) (hf : allowed_file f.filename = false) :
    (chat w req).2.2.transcriber = 0 ∧
    (textProvided req = true →
      chat w req =
        (200, (process_text w ((pyOr req.formText req.jsonText).getD "")).1,
          (process_text w ((pyOr req.formText req.jsonText).getD "")).2)) ∧
    (textProvided req = false →
      chat w req = (400, ⟨"Invalid request", none⟩, zeroTrace)) := by
  have h1 : audioHandled req = false := by
    unfold audioHandled
    rw [ha]
    simp [hf]
  have hb := chatBody_no_audio_handled w req h1
  cases htp : textProvided req with
  | true =>
    rw [chat_of_body_ok w req 200 _ _ (hb.trans (chatTextStep_text w req htp))]
    refine ⟨?_, fun _ => rfl, fun h => Bool.noConfusion h⟩
    rw [process_text_eq]
  | false =>
    rw [chat_of_body_ok w req 400 _ _ (hb.trans (chatTextStep_noText w req htp))]
    exact ⟨rfl, fun h => absurd h Bool.false_ne_true, fun _ => rfl⟩

theorem C7_witness :
    (chat wOk reqAudioBadExt).2.2.transcriber = 0 ∧
    chat wOk reqAudioBadExt =
      (200, (process_text wOk "hi").1, (process_text wOk "hi").2) := by
  have h := C7_disallowed_ext wOk reqAudioBadExt ⟨"clip.exe"⟩ rfl (by decide)
  exact ⟨h.1, h.2.1 (by decide)⟩

/-- C8 counterexample: with the transcription credential set, a failing
file read (e.g. a nonexistent path) escapes `process_audio` as an
exception, because the `open`/`read` happens outside its `try` block. -/
theorem C8_counterexample :
    process_audio (some "hf-key") (Except.error PyExn.ioError)
      (HFOutcome.jsonDict (some "hello")) = Except.error PyExn.ioError := rfl

/-- C8 amended: `process_audio` never raises provided the credential is
unset (it returns its not-configured sentinel before touching the file) or
the file read succeeds; with the credential set it maps transport failures
and missing/empty/non-object `text` fields to sentinel strings. A failing
file read, however, propagates as an exception to the caller. -/
theorem C8_amended_no_raise (key : Option String) (fr : Except PyExn String)
    (o : HFOutcome) (h : pyTruthyStr key = false ∨ ∃ d, fr = Except.ok d) :
    (∃ t, process_audio key fr o = Except.ok t) ∧
    (pyTruthyStr key = false →
      process_audio key fr o = Except.ok transcriptionNotConfiguredSentinel) ∧
    (pyTruthyStr key = true → ∀ d,
      process_audio key (Except.ok d) HFOutcome.transportError =
        Except.ok transcriptionFailedSentinel ∧
      process_audio key (Except.ok d) HFOutcome.jsonNonDict =
        Except.ok couldNotTranscribeSentinel ∧
      process_audio key (Except.ok d) (HFOutcome.jsonDict none) =
        Except.ok couldNotTranscribeSentinel ∧
      process_audio key (Except.ok d) (HFOutcome.jsonDict (some "")) =
        Except.ok couldNotTranscribeSentinel) := by
  have hk2 : pyTruthyStr key = true → ¬(pyTruthyStr key = false) := by
    intro hk hc
    rw [hk] at hc
    exact Bool.noConfusion hc
  refine ⟨?_, ?_, ?_⟩
  · rcases h with hk | ⟨d, hd⟩
    · exact ⟨_, by unfold process_audio; rw [if_pos hk]⟩
    · subst hd
      exact process_audio_read_ok key d o
  · intro hk
    unfold process_audio
    rw [if_pos hk]
  · intro hk d
    refine ⟨?_, ?_, ?_, ?_⟩ <;> (unfold process_audio; rw [if_neg (hk2 hk)])
    rfl

theorem C8_amended_witness :
    process_audio none (Except.error PyExn.ioError) HFOutcome.transportError =
      Except.ok transcriptionNotConfiguredSentinel :=
  (C8_amended_no_raise none (Except.error PyExn.ioError)
    HFOutcome.transportError (Or.inl rfl)).2.1 rfl

/-- C9 counterexample: two distinct requests uploading the same filename are
saved to the same path, so upload file names are not per-request unique and
two concurrent such requests write to the same file path. -/
theorem C9_counterexample :
    (⟨some ⟨"clip.webm"⟩, some "a", none⟩ : ChatRequest) ≠
      (⟨some ⟨"clip.webm"⟩, some "b", none⟩ : ChatRequest) ∧
    (chat wOk ⟨some ⟨"clip.webm"⟩, some "a", none⟩).2.2.writes =
      ["uploads/clip.webm"] ∧
    (chat wOk ⟨some ⟨"clip.webm"⟩, some "b", none⟩).2.2.writes =
      ["uploads/clip.webm"] := by
  decide

/-- C9 amended: distinct sanitized upload filenames map to distinct upload
paths and distinct synthesis tokens map to distinct speech paths; but the
upload name is derived solely from the client-supplied filename and the
token is random, so neither is guaranteed unique per request. -/
theorem C9_amended_distinct_names (f1 f2 t1 t2 : String) :
    (secure_filename f1 ≠ secure_filename f2 →
      uploadPath f1 ≠ uploadPath f2) ∧
    (t1 ≠ t2 → ttsPath t1 ≠ ttsPath t2) := by
  constructor
  · intro hne he
    apply hne
    unfold uploadPath at he
    have hd := congrArg String.data he
    rw [String.data_append, String.data_append] at hd
    exact String.ext (List.append_cancel_left hd)
  · intro hne he
    apply hne
    unfold ttsPath at he
    have hd := congrArg String.data he
    rw [String.data_append, String.data_append, String.data_append,
      String.data_append] at hd
    exact String.ext (List.append_cancel_left (List.append_cancel_right hd))

theorem C9_amended_witness :
    uploadPath "a.webm" ≠ uploadPath "b.webm" ∧
    ttsPath "AAAAAAAA" ≠ ttsPath "BBBBBBBB" :=
  ⟨(C9_amended_distinct_names "a.webm" "b.webm" "AAAAAAAA" "BBBBBBBB").1
      (by decide),
    (C9_amended_distinct_names "a.webm" "b.webm" "AAAAAAAA" "BBBBBBBB").2
      (by decide)⟩

/-! Lemmas characterising `allowed_file` (for C10). -/

theorem dropWhile_bne_dot_of_mem (l : List Char) (h : '.' ∈ l) :
    ∃ t, l.dropWhile (fun c => c != '.') = '.' :: t := by
  induction l with
  | nil => exact absurd h (List.not_mem_nil '.')
  | cons c cs ih =>
    by_cases hc : c = '.'
    · subst hc
      exact ⟨cs, by simp [List.dropWhile_cons]⟩
    · have h' : '.' ∈ cs := by
        cases h with
        | head => exact absurd rfl hc
        | tail _ hm => exact hm
      obtain ⟨t, ht⟩ := ih h'
      refine ⟨t, ?_⟩
      rw [List.dropWhile_cons, if_pos ?_, ht]
      exact bne_iff_ne.mpr hc

theorem takeWhile_bne_dot_not_dot (x : Char) (l : List Char)
    (h : x ∈ l.takeWhile (fun c => c != '.')) : x ≠ '.' := by
  have hp := List.mem_takeWhile_imp h
  exact bne_iff_ne.mp hp

theorem takeWhile_append_stop (p : Char → Bool) (l1 : List Char) (x : Char)
    (l2 : List Char) (h1 : ∀ y ∈ l1, p y = true) (h2 : p x = false) :
    (l1 ++ x :: l2).takeWhile p = l1 := by
  induction l1 with
  | nil => simp [List.takeWhile_cons, h2]
  | cons c cs ih =>
    have hc : p c = true := h1 c (List.mem_cons_self c cs)
    rw [List.cons_append, List.takeWhile_cons, if_pos hc,
      ih (fun y hy => h1 y (List.mem_cons_of_mem c hy))]

theorem allowed_file_iff (s : String) :
    allowed_file s = true ↔
      ∃ a b : List Char, s.data = a ++ '.' :: b ∧ '.' ∉ b ∧
        asciiLower b = "webm".data := by
  unfold allowed_file
  rw [Bool.and_eq_true]
  constructor
  · rintro ⟨h1, h2⟩
    have hmem : '.' ∈ s.data := List.elem_iff.mp h1
    have hext : "webm".data = asciiLower (afterLastDot s).data := by
      simp [ALLOWED_EXTENSIONS] at h2
      exact h2
    have hr : '.' ∈ s.data.reverse := List.mem_reverse.mpr hmem
    obtain ⟨t, ht⟩ := dropWhile_bne_dot_of_mem _ hr
    have hsplit :
        s.data.reverse.takeWhile (fun c => c != '.') ++ '.' :: t =
          s.data.reverse := by
      rw [← ht]
      exact List.takeWhile_append_dropWhile _ _
    refine ⟨t.reverse, (s.data.reverse.takeWhile (fun c => c != '.')).reverse,
      ?_, ?_, ?_⟩
    · have h3 := congrArg List.reverse hsplit
      rw [List.reverse_append, List.reverse_cons, List.reverse_reverse,
        List.append_assoc, List.singleton_append] at h3
      exact h3.symm
    · intro hx
      exact takeWhile_bne_dot_not_dot '.' _ (List.mem_reverse.mp hx) rfl
    · exact hext.symm
  · rintro ⟨a, b, hs, hnb, hlow⟩
    have hald : (afterLastDot s).data = b := by
      show (s.data.reverse.takeWhile (fun c => c != '.')).reverse = b
      rw [hs, List.reverse_append, List.reverse_cons, List.append_assoc,
        List.singleton_append]
      rw [takeWhile_append_stop _ b.reverse '.' a.reverse
        (fun y hy => bne_iff_ne.mpr
          (fun he => hnb (by rw [← he]; exact List.mem_reverse.mp hy)))
        (by decide)]
      exact List.reverse_reverse b
    constructor
    · refine List.elem_iff.mpr ?_
      rw [hs]
      exact List.mem_append_right a (List.mem_cons_self '.' b)
    · simp [ALLOWED_EXTENSIONS, hald, hlow]

/-- C10: `allowed_file` accepts exactly the filenames with a dot whose
substring after the last dot, lowercased, is in the allow-list `{webm}`;
only the final dot-separated segment is inspected, so the multi-extension
name `clip.exe.webm` is accepted. -/
theorem C10_allowed_file_spec :
    (∀ s : String, allowed_file s = true ↔
      ∃ a b : List Char, s.data = a ++ '.' :: b ∧ '.' ∉ b ∧
        asciiLower b = "webm".data) ∧
    allowed_file "clip.exe.webm" = true :=
  ⟨allowed_file_iff, by decide⟩
